import Mathlib

/-!
Verification of the sign-in workflow of `src/automation/signin.py`
(`SignInManager`).

Modelling choices (shallow embedding):

* The browser driver is an external resource.  Every call the workflow makes
  into the driver (navigate, find element, click, clear, send keys, read page
  source, sleep) is modelled by a field of an environment record holding the
  outcome of that call at that call site, in program order.  A call that can
  raise is modelled as `Except String α` (`Res α`); its `.error` value is the
  exception.
* The element locator (`ElementFinder.find_by_selectors` and
  `find_clickable_by_selectors`) is an external collaborator whose contract
  is to return the first match or "not found" without raising, so its
  outcome is `Option Elem`.  In `check_login_status` the lookup is kept as
  `Res (Option Elem)` because the code defensively guards that lookup with
  its own `try`/`except` and the guarantee proved there is exactly about
  raised exceptions.
* Every externally visible action of a run is recorded in an `Act` trace,
  so that statements such as "no click is recorded" are expressible.
* Returned booleans of the Python methods become the `Bool` component of the
  result; `try`/`except` blocks become a `match` on the `Except` value of the
  guarded body.
-/

/-- Abstract page elements: only identity matters to the workflow. -/
abbrev Elem : Type := Nat

/-- Outcome of a driver call that can raise: a value, or an exception with
its message. -/
abbrev Res (α : Type) : Type := Except String α

/-- Python substring containment `needle in hay`. -/
def strContains (needle hay : String) : Bool :=
  decide (needle.data <:+: hay.data)

/-- Externally visible actions a run can perform, in program order. -/
inductive Act where
  | navigate
  | waitLoad
  | findAge
  | clickAge
  | waitAfterAge
  | findUsername
  | findPassword
  | typeUsername
  | typePassword
  | findQuestion
  | findOptions
  | readOption (i : Nat)
  | clickOption (i : Nat)
  | findAnswer
  | typeAnswer
  | locateSubmit
  | clickSubmit
  | waitAfterSubmit
  | findStatus
  | readPage
  | addCookie (name value : String)
  | reload
  deriving DecidableEq

/-- Session configuration (`SignInManager.__init__`, `signin.py:19-36`). -/
structure Config where
  base_url : String
  username : String
  password : String
  enable_security_question : Bool
  security_question : String
  security_answer : String
  deriving DecidableEq

/-- The fixed login markers of `check_login_status` (`signin.py:129-133`):
two logout-link XPaths and one CSS class. -/
def loginIndicators : List String :=
  ["//a[contains(text(),\x27退出\x27)]",
   "//a[contains(@href,\x27logout\x27)]",
   ".vwmy"]

/-- The fixed failure phrases of `check_login_error_message`
(`signin.py:141-146`), in list order. -/
def error_phrases : List String :=
  ["用户名或密码错误", "密码错误次数过多", "账号已被禁用", "登录失败"]

-- ==========================================================
-- Age verification (`handle_age_verification`, signin.py:41-58)
-- ==========================================================

/-- Driver outcomes consumed by `handle_age_verification`. -/
structure AgeEnv where
  findAge : Option Elem
  click : Res Unit
  wait : Res Unit

/-- `handle_age_verification` (`signin.py:41-58`): look for the 18+ link;
if present click it and wait; any exception is swallowed and the method
returns `True` in every case. -/
def handle_age_verification (env : AgeEnv) : Bool × List Act :=
  match env.findAge with
  | none => (true, [.findAge])
  | some _ =>
    match env.click with
    | .error _ => (true, [.findAge, .clickAge])
    | .ok _ =>
      match env.wait with
      | .error _ => (true, [.findAge, .clickAge, .waitAfterAge])
      | .ok _ => (true, [.findAge, .clickAge, .waitAfterAge])

-- ==========================================================
-- Credential form (`fill_login_form`, signin.py:63-88)
-- ==========================================================

/-- Driver outcomes consumed by `fill_login_form`. -/
structure FillEnv where
  findUsername : Option Elem
  findPassword : Option Elem
  usernameClear : Res Unit
  usernameKeys : Res Unit
  passwordClear : Res Unit
  passwordKeys : Res Unit

/-- `fill_login_form` (`signin.py:63-88`): locate the username field, then
the password field, aborting with `False` if either is missing; then clear
and populate both; any exception yields `False`. -/
def fill_login_form (env : FillEnv) : Bool × List Act :=
  match env.findUsername with
  | none => (false, [.findUsername])
  | some _ =>
    match env.findPassword with
    | none => (false, [.findUsername, .findPassword])
    | some _ =>
      match env.usernameClear with
      | .error _ => (false, [.findUsername, .findPassword, .typeUsername])
      | .ok _ =>
        match env.usernameKeys with
        | .error _ => (false, [.findUsername, .findPassword, .typeUsername])
        | .ok _ =>
          match env.passwordClear with
          | .error _ =>
            (false, [.findUsername, .findPassword, .typeUsername, .typePassword])
          | .ok _ =>
            match env.passwordKeys with
            | .error _ =>
              (false, [.findUsername, .findPassword, .typeUsername, .typePassword])
            | .ok _ =>
              (true, [.findUsername, .findPassword, .typeUsername, .typePassword])

-- ==========================================================
-- Security question (`handle_security_question`, signin.py:93-122)
-- ==========================================================

/-- One `<option>` element of the question dropdown: reading its text and
clicking it can each raise. -/
structure OptionElem where
  text : Res String
  click : Res Unit

/-- Driver outcomes consumed by `handle_security_question`. -/
structure SecEnv where
  findQuestion : Option Elem
  options : Res (List OptionElem)
  findAnswer : Option Elem
  answerClear : Res Unit
  answerKeys : Res Unit

/-- The option loop of `handle_security_question` (`signin.py:107-110`):
iterate the options; on the first option whose text contains the configured
question, click it and stop.  Returns the exception, if one was raised, and
the acts performed. -/
def clickMatching (q : String) : List OptionElem → Nat → Res Unit × List Act
  | [], _ => (.ok (), [])
  | o :: rest, i =>
    match o.text with
    | .error m => (.error m, [.readOption i])
    | .ok t =>
      if strContains q t then
        match o.click with
        | .error m => (.error m, [.readOption i, .clickOption i])
        | .ok _ => (.ok (), [.readOption i, .clickOption i])
      else
        let r := clickMatching q rest (i + 1)
        (r.1, .readOption i :: r.2)

/-- `handle_security_question` (`signin.py:93-122`): immediately `True` when
the feature is disabled; otherwise locate the question dropdown (absence is
success), click the matching option, locate and fill the answer input
(absence is tolerated); any exception yields `False`. -/
def handle_security_question (cfg : Config) (env : SecEnv) : Bool × List Act :=
  if !cfg.enable_security_question then (true, [])
  else
    match env.findQuestion with
    | none => (true, [.findQuestion])
    | some _ =>
      match env.options with
      | .error _ => (false, [.findQuestion, .findOptions])
      | .ok opts =>
        let loop := clickMatching cfg.security_question opts 0
        match loop.1 with
        | .error _ => (false, .findQuestion :: .findOptions :: loop.2)
        | .ok _ =>
          match env.findAnswer with
          | none =>
            (true, .findQuestion :: .findOptions :: (loop.2 ++ [.findAnswer]))
          | some _ =>
            match env.answerClear with
            | .error _ =>
              (false, .findQuestion :: .findOptions ::
                (loop.2 ++ [.findAnswer, .typeAnswer]))
            | .ok _ =>
              match env.answerKeys with
              | .error _ =>
                (false, .findQuestion :: .findOptions ::
                  (loop.2 ++ [.findAnswer, .typeAnswer]))
              | .ok _ =>
                (true, .findQuestion :: .findOptions ::
                  (loop.2 ++ [.findAnswer, .typeAnswer]))

-- ==========================================================
-- Login state check (`check_login_status`, signin.py:127-137)
-- ==========================================================

/-- Driver outcome consumed by `check_login_status`: the guarded lookup over
a selector list with a timeout, which can also raise. -/
structure StatusEnv where
  find : List String → Nat → Res (Option Elem)

/-- `check_login_status` (`signin.py:127-137`): look for any of the fixed
`loginIndicators` with a 3 second timeout; the result is the boolean of the
found element, and any exception yields `False`. -/
def check_login_status (env : StatusEnv) : Bool × List Act :=
  match env.find loginIndicators 3 with
  | .ok (some _) => (true, [.findStatus])
  | .ok none => (false, [.findStatus])
  | .error _ => (false, [.findStatus])

-- ==========================================================
-- Error message scan (`check_login_error_message`, signin.py:139-150)
-- ==========================================================

/-- The scan of `check_login_error_message` (`signin.py:147-150`): the first
phrase of `error_phrases`, in list order, contained in the page source. -/
def scan_errors (page : String) : Option String :=
  error_phrases.find? (fun e => strContains e page)

/-- `check_login_error_message` (`signin.py:139-150`): read the page source
(which can raise, and this method does not guard it) and scan it. -/
def check_login_error_message (pageSource : Res String) :
    Res (Option String) × List Act :=
  match pageSource with
  | .error m => (.error m, [.readPage])
  | .ok page => (.ok (scan_errors page), [.readPage])

-- ==========================================================
-- Login entry point (`login`, signin.py:155-200)
-- ==========================================================

/-- Driver outcomes consumed by `login` and the sub-environments it hands to
each step. -/
structure LoginEnv where
  navigate : Res Unit
  wait1 : Res Unit
  age : AgeEnv
  fill : FillEnv
  sec : SecEnv
  findSubmit : Option Elem
  clickSubmit : Res Unit
  wait2 : Res Unit
  status : StatusEnv
  pageSource : Res String

/-- The URL `login` navigates to (`signin.py:162`). -/
def login_url (cfg : Config) : String :=
  cfg.base_url ++ "/member.php?mod=logging&action=login"

/-- The body of the `try` block of `login` (`signin.py:159-196`): navigate,
wait, run age verification (result unused), fill the form (aborting on
`False`), run the security question step (result ignored, `signin.py:173`),
locate and click submit (aborting when absent), wait, check the login state,
and on failure scan for an error message.  The `Except` value carries an
exception escaping the body. -/
def login_body (cfg : Config) (env : LoginEnv) : Res Bool × List Act :=
  match env.navigate with
  | .error m => (.error m, [.navigate])
  | .ok _ =>
    match env.wait1 with
    | .error m => (.error m, [.navigate, .waitLoad])
    | .ok _ =>
      let age := handle_age_verification env.age
      let pre : List Act := .navigate :: .waitLoad :: age.2
      let fill := fill_login_form env.fill
      if !fill.1 then (.ok false, pre ++ fill.2)
      else
        let sec := handle_security_question cfg env.sec
        let tr2 : List Act := pre ++ fill.2 ++ sec.2
        match env.findSubmit with
        | none => (.ok false, tr2 ++ [.locateSubmit])
        | some _ =>
          match env.clickSubmit with
          | .error m => (.error m, tr2 ++ [.locateSubmit, .clickSubmit])
          | .ok _ =>
            match env.wait2 with
            | .error m =>
              (.error m, tr2 ++ [.locateSubmit, .clickSubmit, .waitAfterSubmit])
            | .ok _ =>
              let st := check_login_status env.status
              let tr3 : List Act :=
                tr2 ++ [.locateSubmit, .clickSubmit, .waitAfterSubmit] ++ st.2
              if st.1 then (.ok true, tr3)
              else
                let err := check_login_error_message env.pageSource
                match err.1 with
                | .error m => (.error m, tr3 ++ err.2)
                | .ok _ => (.ok false, tr3 ++ err.2)

/-- `login` (`signin.py:155-200`) with its trace: the `try` body, with the
top-level `except` turning any escaped exception into `False`. -/
def login_run (cfg : Config) (env : LoginEnv) : Bool × List Act :=
  match login_body cfg env with
  | (.ok b, tr) => (b, tr)
  | (.error _, tr) => (false, tr)

/-- The boolean `login` returns to its caller. -/
def login (cfg : Config) (env : LoginEnv) : Bool :=
  (login_run cfg env).1

-- ==========================================================
-- Cookie-based login (spec §4.3; not present under src/)
-- ==========================================================

/-- Modelled from the spec: the cookie-based login variant of §4.3 is not in
`src/` (only the credential `login` is), so pair splitting follows the
spec\x27s words.  Split one pair at its first `=`: the part before the first
`=` is the name, the rest the value; a pair without `=` is malformed and
yields `none`. -/
def splitEqAux (acc : List Char) : List Char → Option (String × String)
  | [] => none
  | c :: rest =>
    if c = '=' then some (⟨acc.reverse⟩, ⟨rest⟩)
    else splitEqAux (c :: acc) rest

/-- Modelled from the spec: split the raw cookie string on `;`, keeping the
chunks in order. -/
def splitSemis (cur : List Char) : List Char → List (List Char)
  | [] => [cur.reverse]
  | c :: rest =>
    if c = ';' then cur.reverse :: splitSemis [] rest
    else splitSemis (c :: cur) rest

/-- Whitespace trimming of one chunk, from both ends. -/
def trimChars (cs : List Char) : List Char :=
  ((cs.dropWhile Char.isWhitespace).reverse.dropWhile Char.isWhitespace).reverse

/-- Modelled from the spec: the `name=value` pairs of a semicolon-separated
cookie string, each entry trimmed, malformed entries (no `=`) skipped. -/
def parseCookies (s : String) : List (String × String) :=
  ((splitSemis [] s.data).map trimChars).filterMap (splitEqAux [])

/-- Driver outcomes consumed by the cookie-based login: navigation to the
site root, per-cookie injection (whose failures are logged, not fatal),
reload, and the Login State Check lookup. -/
structure CookieEnv where
  navigate : Res Unit
  addCookie : String → String → Res Unit
  reload : Res Unit
  status : StatusEnv

/-- Modelled from the spec: the cookie-based login of §4.3, absent from
`src/`.  Navigate to the site root, inject each parsed `name=value` pair
(individual injection failures are logged and do not abort the run, so the
injection outcomes do not steer control flow), reload, then run the Login
State Check; succeed exactly when that check passes, with no fallback to
credential login. -/
def cookie_login_run (cookieStr : String) (env : CookieEnv) : Bool × List Act :=
  match env.navigate with
  | .error _ => (false, [.navigate])
  | .ok _ =>
    let injections :=
      (parseCookies cookieStr).map (fun nv => Act.addCookie nv.1 nv.2)
    match env.reload with
    | .error _ => (false, .navigate :: (injections ++ [.reload]))
    | .ok _ =>
      let st := check_login_status env.status
      (st.1, .navigate :: ((injections ++ [.reload]) ++ st.2))

/-- Modelled from the spec: the boolean the cookie-based login reports. -/
def cookie_login (cookieStr : String) (env : CookieEnv) : Bool :=
  (cookie_login_run cookieStr env).1

-- ==========================================================
-- Concrete runs used to instantiate the theorems
-- ==========================================================

/-- A configuration with the security question disabled. -/
def cfg0 : Config :=
  ⟨"https://www.sehuatang.org", "user", "pass", false, "", ""⟩

/-- A configuration with the security question enabled. -/
def cfgSec : Config :=
  ⟨"https://www.sehuatang.org", "user", "pass", true, "安全提问", "答案"⟩

/-- No age gate on the page. -/
def ageOk : AgeEnv := ⟨none, .ok (), .ok ()⟩

/-- An age gate whose click raises. -/
def agePresent : AgeEnv := ⟨some 0, .error "element intercepted", .ok ()⟩

/-- Both credential fields present, all typing succeeds. -/
def fillOk : FillEnv := ⟨some 1, some 2, .ok (), .ok (), .ok (), .ok ()⟩

/-- The username field is missing. -/
def fillNoUser : FillEnv := ⟨none, some 2, .ok (), .ok (), .ok (), .ok ()⟩

/-- A trivial security-question environment. -/
def secOff : SecEnv := ⟨none, .ok [], none, .ok (), .ok ()⟩

/-- A security-question environment whose option listing raises. -/
def secBoom : SecEnv := ⟨some 5, .error "stale element", none, .ok (), .ok ()⟩

/-- A question dropdown with one option that does not match, and no answer
input. -/
def secNoMatch : SecEnv := ⟨some 5, .ok [⟨.ok "x", .ok ()⟩], none, .ok (), .ok ()⟩

/-- The state-check lookup finds a marker. -/
def statusHit : StatusEnv := ⟨fun _ _ => .ok (some 3)⟩

/-- The state-check lookup finds nothing. -/
def statusMiss : StatusEnv := ⟨fun _ _ => .ok none⟩

/-- The state-check lookup raises. -/
def statusBoom : StatusEnv := ⟨fun _ _ => .error "driver lost"⟩

/-- A fully successful credential-login run. -/
def envOk : LoginEnv :=
  ⟨.ok (), .ok (), ageOk, fillOk, secOff, some 4, .ok (), .ok (), statusHit, .ok ""⟩

/-- A run whose initial navigation raises. -/
def envNavFail : LoginEnv :=
  ⟨.error "net down", .ok (), ageOk, fillOk, secOff, some 4, .ok (), .ok (),
    statusHit, .ok ""⟩

/-- A run in which the username field is missing. -/
def envNoUser : LoginEnv :=
  ⟨.ok (), .ok (), ageOk, fillNoUser, secOff, some 4, .ok (), .ok (),
    statusHit, .ok ""⟩

/-- A run in which the security-question step fails but everything else
succeeds. -/
def envSecFail : LoginEnv :=
  ⟨.ok (), .ok (), ageOk, fillOk, secBoom, some 4, .ok (), .ok (),
    statusHit, .ok ""⟩

/-- A cookie run in which every injection fails but a marker is found after
reload. -/
def cookieEnvHit : CookieEnv :=
  ⟨.ok (), fun _ _ => .error "rejected", .ok (), statusHit⟩

-- ==========================================================
-- Shared lemmas
-- ==========================================================

/-- Acts the age-verification step can perform. -/
lemma age_trace_cases (env : AgeEnv) (a : Act)
    (h : a ∈ (handle_age_verification env).2) :
    a = .findAge ∨ a = .clickAge ∨ a = .waitAfterAge := by
  obtain ⟨f, c, w⟩ := env
  rcases f with _ | e <;> rcases c with m | v <;> rcases w with m2 | v2 <;>
    simp [handle_age_verification] at h <;> tauto

/-- Acts the form-filling step can perform. -/
lemma fill_trace_cases (env : FillEnv) (a : Act)
    (h : a ∈ (fill_login_form env).2) :
    a = .findUsername ∨ a = .findPassword ∨ a = .typeUsername ∨
      a = .typePassword := by
  obtain ⟨u, p, c1, k1, c2, k2⟩ := env
  rcases u with _ | u <;> rcases p with _ | p <;>
    rcases c1 with m | v <;> rcases k1 with m | v <;>
    rcases c2 with m | v <;> rcases k2 with m | v <;>
    simp [fill_login_form] at h <;> tauto

/-- Form filling fails when either credential field is missing. -/
lemma fill_login_form_missing (env : FillEnv)
    (h : env.findUsername = none ∨ env.findPassword = none) :
    (fill_login_form env).1 = false := by
  obtain ⟨u, p, c1, k1, c2, k2⟩ := env
  rcases h with h | h <;> simp only at h <;> subst h <;>
    first
    | rfl
    | (rcases u with _ | u <;>
        rcases c1 with m | v <;> rcases k1 with m | v <;>
        simp [fill_login_form])

/-- A raising navigation aborts the run with only the navigation recorded. -/
lemma login_run_nav_error (cfg : Config) (env : LoginEnv) (m : String)
    (hn : env.navigate = .error m) :
    login_run cfg env = (false, [.navigate]) := by
  unfold login_run login_body
  simp [hn]

/-- A raising settling wait aborts the run before the form steps. -/
lemma login_run_wait1_error (cfg : Config) (env : LoginEnv) (m : String)
    (hn : env.navigate = .ok ()) (hw : env.wait1 = .error m) :
    login_run cfg env = (false, [.navigate, .waitLoad]) := by
  unfold login_run login_body
  simp [hn, hw]

/-- When form filling fails the run stops right there. -/
lemma login_run_fill_false (cfg : Config) (env : LoginEnv)
    (hn : env.navigate = .ok ()) (hw : env.wait1 = .ok ())
    (hf : (fill_login_form env.fill).1 = false) :
    login_run cfg env =
      (false, Act.navigate :: Act.waitLoad ::
        ((handle_age_verification env.age).2 ++ (fill_login_form env.fill).2)) := by
  unfold login_run login_body
  rcases hfl : fill_login_form env.fill with ⟨fb, ftr⟩
  rw [hfl] at hf
  simp only at hf
  subst hf
  simp [hn, hw, hfl]

/-- Characterization of a successful `login` run: every gate of the `try`
body must pass and the final state check must hit a marker. -/
lemma login_eq_true_iff (cfg : Config) (env : LoginEnv) :
    login cfg env = true ↔
      (env.navigate = .ok () ∧ env.wait1 = .ok () ∧
       (fill_login_form env.fill).1 = true ∧ (∃ e, env.findSubmit = some e) ∧
       env.clickSubmit = .ok () ∧ env.wait2 = .ok () ∧
       (check_login_status env.status).1 = true) := by
  unfold login login_run login_body
  rcases hn : env.navigate with m | v
  · simp [hn]
  · obtain ⟨⟩ := v
    rcases hw : env.wait1 with m | w
    · simp [hn, hw]
    · obtain ⟨⟩ := w
      rcases hf : fill_login_form env.fill with ⟨fb, ftr⟩
      cases fb with
      | false => simp [hn, hw, hf]
      | true =>
        rcases hs : env.findSubmit with _ | e
        · simp [hn, hw, hf, hs]
        · rcases hc : env.clickSubmit with m | c
          · simp [hn, hw, hf, hs, hc]
          · obtain ⟨⟩ := c
            rcases hw2 : env.wait2 with m | w2
            · simp [hn, hw, hf, hs, hc, hw2]
            · obtain ⟨⟩ := w2
              rcases hst : check_login_status env.status with ⟨sb, st⟩
              cases sb with
              | true => simp [hn, hw, hf, hs, hc, hw2, hst]
              | false =>
                rcases hp : env.pageSource with m | pg <;>
                  simp [hn, hw, hf, hs, hc, hw2, hst, hp,
                    check_login_error_message]

-- ==========================================================
-- C3: exceptions are converted into a failure return
-- ==========================================================

/-- C3: for every input and every exception escaping a step of the `try`
body of `login`, the top-level handler converts it into a `false` return;
`login` is a total boolean function and never propagates an exception. -/
theorem login_exception_to_false (cfg : Config) (env : LoginEnv) (m : String)
    (h : (login_body cfg env).1 = .error m) : login cfg env = false := by
  unfold login login_run
  rcases hb : login_body cfg env with ⟨r, tr⟩
  rw [hb] at h
  simp only at h
  subst h
  rfl

/-- Witness for C3: a run whose navigation raises returns `false`. -/
theorem login_exception_to_false_witness : login cfg0 envNavFail = false :=
  login_exception_to_false cfg0 envNavFail "net down" rfl

-- ==========================================================
-- C6: age verification never fails
-- ==========================================================

/-- C6: the age-verification step reports success on every input — link
present (clicked), absent, or any internal exception — so it never fails
the workflow. -/
theorem handle_age_verification_never_fails (env : AgeEnv) :
    (handle_age_verification env).1 = true ∧
      (∀ e, env.findAge = some e →
        Act.clickAge ∈ (handle_age_verification env).2) := by
  obtain ⟨f, c, w⟩ := env
  rcases f with _ | e <;> rcases c with m | v <;> rcases w with m2 | v2 <;>
    simp [handle_age_verification]

/-- Witness for C6: with the 18+ link present and a raising click, the step
still succeeds after clicking. -/
theorem handle_age_verification_never_fails_witness :
    (handle_age_verification agePresent).1 = true ∧
      Act.clickAge ∈ (handle_age_verification agePresent).2 :=
  ⟨(handle_age_verification_never_fails agePresent).1,
   (handle_age_verification_never_fails agePresent).2 0 rfl⟩

-- ==========================================================
-- C9: disabled security question is a no-op
-- ==========================================================

/-- C9: with the feature disabled, the security-question step returns
success and performs no lookups, clicks, or input, for every page
environment. -/
theorem handle_security_question_disabled_noop (cfg : Config) (env : SecEnv)
    (h : cfg.enable_security_question = false) :
    handle_security_question cfg env = (true, []) := by
  simp [handle_security_question, h]

/-- Witness for C9: disabled feature, an environment whose option listing
would raise — still a silent success. -/
theorem handle_security_question_disabled_noop_witness :
    handle_security_question cfg0 secBoom = (true, []) :=
  handle_security_question_disabled_noop cfg0 secBoom rfl

-- ==========================================================
-- C7: login state check and the fixed markers
-- ==========================================================

/-- The state check is true exactly when the marker lookup hits. -/
lemma check_login_status_true_iff (env : StatusEnv) :
    (check_login_status env).1 = true ↔
      ∃ e, env.find loginIndicators 3 = .ok (some e) := by
  obtain ⟨f⟩ := env
  rcases h : f loginIndicators 3 with m | o
  · simp [check_login_status, h]
  · rcases o with _ | e <;> simp [check_login_status, h]

/-- The state check performs exactly one lookup. -/
lemma check_login_status_trace (env : StatusEnv) :
    (check_login_status env).2 = [Act.findStatus] := by
  rcases h : env.find loginIndicators 3 with m | o
  · simp [check_login_status, h]
  · rcases o with _ | e <;> simp [check_login_status, h]

/-- C7: the state check reports logged-in exactly when the lookup over the
fixed `loginIndicators` returns an element within its 3 second timeout, and
a raised lookup exception always yields not-logged-in. -/
theorem check_login_status_markers (env : StatusEnv) :
    ((check_login_status env).1 = true ↔
      ∃ e, env.find loginIndicators 3 = .ok (some e)) ∧
    (∀ m, env.find loginIndicators 3 = .error m →
      (check_login_status env).1 = false) := by
  refine ⟨check_login_status_true_iff env, ?_⟩
  intro m hm
  cases hb : (check_login_status env).1 with
  | false => rfl
  | true =>
    obtain ⟨e, he⟩ := (check_login_status_true_iff env).mp hb
    rw [hm] at he
    exact Except.noConfusion he

/-- Witness for C7: a raising lookup yields not-logged-in. -/
theorem check_login_status_markers_witness :
    (check_login_status statusBoom).1 = false :=
  (check_login_status_markers statusBoom).2 "driver lost" rfl

-- ==========================================================
-- C4: success exactly when the post-submit state check passes
-- ==========================================================

/-- C4: `login` reports success only when the state check passed, and in a
run that reaches the submitted form (all earlier gates pass), success holds
exactly when the state check passes — no partial success, no retry. -/
theorem login_success_iff_state_check (cfg : Config) (env : LoginEnv) :
    (login cfg env = true → (check_login_status env.status).1 = true) ∧
    (env.navigate = .ok () → env.wait1 = .ok () →
      (fill_login_form env.fill).1 = true → (∃ e, env.findSubmit = some e) →
      env.clickSubmit = .ok () → env.wait2 = .ok () →
      (login cfg env = true ↔ (check_login_status env.status).1 = true)) := by
  constructor
  · intro h
    exact ((login_eq_true_iff cfg env).mp h).2.2.2.2.2.2
  · intro h1 h2 h3 h4 h5 h6
    constructor
    · intro h
      exact ((login_eq_true_iff cfg env).mp h).2.2.2.2.2.2
    · intro h
      exact (login_eq_true_iff cfg env).mpr ⟨h1, h2, h3, h4, h5, h6, h⟩

/-- Witness for C4: a run with both fields, a submit control and a marker
after the settling delay reports success. -/
theorem login_success_iff_state_check_witness : login cfg0 envOk = true :=
  ((login_success_iff_state_check cfg0 envOk).2 rfl rfl rfl ⟨4, rfl⟩ rfl
    rfl).mpr rfl

-- ==========================================================
-- C5: a missing credential field aborts before the submit step
-- ==========================================================

/-- No submit interaction occurs in the trace of a run aborted at form
filling. -/
lemma abort_trace_no_submit (ageEnv : AgeEnv) (fillEnv : FillEnv) (a : Act)
    (ha : a = Act.locateSubmit ∨ a = Act.clickSubmit) :
    a ∉ (Act.navigate :: Act.waitLoad ::
      ((handle_age_verification ageEnv).2 ++ (fill_login_form fillEnv).2)) := by
  intro hmem
  rcases List.mem_cons.mp hmem with h1 | hmem2
  · rcases ha with h | h <;> subst h <;> exact absurd h1 (by decide)
  rcases List.mem_cons.mp hmem2 with h1 | hmem3
  · rcases ha with h | h <;> subst h <;> exact absurd h1 (by decide)
  rcases List.mem_append.mp hmem3 with h1 | h1
  · rcases age_trace_cases ageEnv a h1 with h2 | h2 | h2 <;>
      rcases ha with h | h <;> subst h <;> exact absurd h2 (by decide)
  · rcases fill_trace_cases fillEnv a h1 with h2 | h2 | h2 | h2 <;>
      rcases ha with h | h <;> subst h <;> exact absurd h2 (by decide)

/-- C5: when the username or the password field cannot be located, `login`
returns `false` and neither locates nor clicks the submit control. -/
theorem login_missing_credential_field_aborts (cfg : Config) (env : LoginEnv)
    (h : env.fill.findUsername = none ∨ env.fill.findPassword = none) :
    login cfg env = false ∧
      Act.locateSubmit ∉ (login_run cfg env).2 ∧
      Act.clickSubmit ∉ (login_run cfg env).2 := by
  have hf := fill_login_form_missing env.fill h
  rcases hn : env.navigate with m | v
  · have hr := login_run_nav_error cfg env m hn
    simp [login, hr]
  · obtain ⟨⟩ := v
    rcases hw : env.wait1 with m | w
    · have hr := login_run_wait1_error cfg env m hn hw
      simp [login, hr]
    · obtain ⟨⟩ := w
      have hr := login_run_fill_false cfg env hn hw hf
      refine ⟨by simp [login, hr], ?_, ?_⟩
      · rw [hr]
        exact abort_trace_no_submit env.age env.fill _ (Or.inl rfl)
      · rw [hr]
        exact abort_trace_no_submit env.age env.fill _ (Or.inr rfl)

/-- Witness for C5: a run with no username field fails with no submit
interaction recorded. -/
theorem login_missing_credential_field_aborts_witness :
    login cfg0 envNoUser = false ∧
      Act.locateSubmit ∉ (login_run cfg0 envNoUser).2 ∧
      Act.clickSubmit ∉ (login_run cfg0 envNoUser).2 :=
  login_missing_credential_field_aborts cfg0 envNoUser (Or.inl rfl)

-- ==========================================================
-- C2: the security-question step does not gate the sequence
-- ==========================================================

/-- Counterexample to C2: a run in which the security-question step reports
failure, yet `login` clicks the submit control and returns `true` — the
step\x27s result is ignored at `signin.py:173`, so login is not gated on
it. -/
theorem login_not_gated_on_security_failure_counterexample :
    (handle_security_question cfgSec envSecFail.sec).1 = false ∧
      login cfgSec envSecFail = true ∧
      Act.clickSubmit ∈ (login_run cfgSec envSecFail).2 := by
  refine ⟨rfl, rfl, ?_⟩
  decide

/-- In a run that passes navigation, waiting and form filling, the submit
control is located whatever the security-question step did. -/
lemma login_run_locates_submit (cfg : Config) (env : LoginEnv)
    (hn : env.navigate = .ok ()) (hw : env.wait1 = .ok ())
    (hf : (fill_login_form env.fill).1 = true) :
    Act.locateSubmit ∈ (login_run cfg env).2 := by
  unfold login_run login_body
  rcases hfl : fill_login_form env.fill with ⟨fb, ftr⟩
  rw [hfl] at hf
  simp only at hf
  subst hf
  rcases hs : env.findSubmit with _ | e
  · simp [hn, hw, hfl, hs]
  · rcases hc : env.clickSubmit with m | c
    · simp [hn, hw, hfl, hs, hc]
    · obtain ⟨⟩ := c
      rcases hw2 : env.wait2 with m | w2
      · simp [hn, hw, hfl, hs, hc, hw2]
      · obtain ⟨⟩ := w2
        rcases hst : check_login_status env.status with ⟨sb, st⟩
        cases sb with
        | true => simp [hn, hw, hfl, hs, hc, hw2, hst]
        | false =>
          rcases hp : env.pageSource with m | pg <;>
            simp [hn, hw, hfl, hs, hc, hw2, hst, hp,
              check_login_error_message]

/-- C2 amended: the security-question step does not gate the sequence — the
result of `login` is unchanged under any replacement of the
security-question environment, and whenever navigation, waiting and form
filling succeed, the submit control is located regardless of the
security-question step\x27s outcome. -/
theorem login_ignores_security_question_result (cfg : Config)
    (env : LoginEnv) (sec2 : SecEnv) :
    login cfg { env with sec := sec2 } = login cfg env ∧
    (env.navigate = .ok () → env.wait1 = .ok () →
      (fill_login_form env.fill).1 = true →
      Act.locateSubmit ∈ (login_run cfg env).2) := by
  constructor
  · rw [Bool.eq_iff_iff, login_eq_true_iff, login_eq_true_iff]
  · exact login_run_locates_submit cfg env

/-- Witness for the amended C2: in the run of the counterexample, replacing
the failing security-question environment does not change the outcome, and
the submit control is located. -/
theorem login_ignores_security_question_result_witness :
    login cfgSec { envSecFail with sec := secOff } = login cfgSec envSecFail ∧
      Act.locateSubmit ∈ (login_run cfgSec envSecFail).2 :=
  ⟨(login_ignores_security_question_result cfgSec envSecFail secOff).1,
   (login_ignores_security_question_result cfgSec envSecFail secOff).2
     rfl rfl rfl⟩

-- ==========================================================
-- C8: first matching failure phrase, in list order
-- ==========================================================

/-- C8: the error scan of an authenticated page read returns exactly the
first phrase of `error_phrases`, in list order, contained in the page, and
`none` when no phrase occurs. -/
theorem check_login_error_message_first_match (page : String) :
    (check_login_error_message (.ok page)).1 = .ok (scan_errors page) ∧
    (scan_errors page = none ↔
      ∀ e ∈ error_phrases, strContains e page = false) ∧
    (∀ r, scan_errors page = some r ↔
      strContains r page = true ∧
        ∃ l₁ l₂, error_phrases = l₁ ++ r :: l₂ ∧
          ∀ e ∈ l₁, strContains e page = false) := by
  refine ⟨rfl, ?_, ?_⟩
  · simp [scan_errors, List.find?_eq_none]
  · intro r
    simp [scan_errors, List.find?_eq_some]

/-- Witness for C8: a page containing only the second phrase yields that
phrase, with the phrase before it absent. -/
theorem check_login_error_message_first_match_witness :
    scan_errors "提示：密码错误次数过多，请稍后再试" = some "密码错误次数过多" :=
  ((check_login_error_message_first_match
      "提示：密码错误次数过多，请稍后再试").2.2 "密码错误次数过多").mpr
    ⟨by decide, ["用户名或密码错误"], ["账号已被禁用", "登录失败"], rfl,
      by decide⟩

-- ==========================================================
-- C10: tolerance of the enabled security-question step
-- ==========================================================

/-- A loop over options none of which matches clicks nothing and raises
nothing. -/
lemma clickMatching_no_match (q : String) (opts : List OptionElem)
    (h : ∀ o ∈ opts, ∃ t, o.text = .ok t ∧ strContains q t = false) :
    ∀ k, (clickMatching q opts k).1 = .ok () ∧
      ∀ i, Act.clickOption i ∉ (clickMatching q opts k).2 := by
  induction opts with
  | nil => intro k; simp [clickMatching]
  | cons o rest ih =>
    intro k
    obtain ⟨t, ht, hc⟩ := h o (by simp)
    have ihr := ih (fun o2 ho2 => h o2 (by simp [ho2])) (k + 1)
    refine ⟨by simp [clickMatching, ht, hc, ihr.1], ?_⟩
    intro i hmem
    simp only [clickMatching, ht, hc] at hmem
    rcases List.mem_cons.mp hmem with h1 | h1
    · exact absurd h1 (by simp)
    · exact ihr.2 i h1

/-- Every act of the option loop is a read or a click of some option. -/
lemma clickMatching_trace_cases (q : String) (opts : List OptionElem)
    (a : Act) :
    ∀ k, a ∈ (clickMatching q opts k).2 →
      (∃ i, a = Act.readOption i) ∨ (∃ i, a = Act.clickOption i) := by
  induction opts with
  | nil => intro k h; simp [clickMatching] at h
  | cons o rest ih =>
    intro k h
    rcases ht : o.text with m | t
    · simp [clickMatching, ht] at h
      exact Or.inl ⟨k, h⟩
    · by_cases hc : strContains q t = true
      · rcases hcl : o.click with m | u <;>
          · simp [clickMatching, ht, hc, hcl] at h
            rcases h with h | h
            · exact Or.inl ⟨k, h⟩
            · exact Or.inr ⟨k, h⟩
      · have hc2 : strContains q t = false := by
          revert hc; cases strContains q t <;> simp
        simp only [clickMatching, ht, hc2] at h
        rcases List.mem_cons.mp h with h1 | h1
        · exact Or.inl ⟨k, h1⟩
        · exact ih (k + 1) h1

/-- C10: with the feature enabled and the question dropdown present, the
step succeeds when no option matches (clicking nothing) and when the answer
input is absent (typing nothing); it reports failure only when an exception
is raised while listing or iterating the options or while filling the
answer. -/
theorem handle_security_question_tolerant (cfg : Config) (env : SecEnv)
    (e : Elem) (hen : cfg.enable_security_question = true)
    (hq : env.findQuestion = some e) :
    (∀ opts, env.options = .ok opts →
      (∀ o ∈ opts, ∃ t, o.text = .ok t ∧
        strContains cfg.security_question t = false) →
      ((∀ i, Act.clickOption i ∉ (handle_security_question cfg env).2) ∧
       ((env.findAnswer = none ∨
          (env.answerClear = .ok () ∧ env.answerKeys = .ok ())) →
         (handle_security_question cfg env).1 = true))) ∧
    (∀ opts, env.options = .ok opts →
      (clickMatching cfg.security_question opts 0).1 = .ok () →
      env.findAnswer = none →
      (Act.typeAnswer ∉ (handle_security_question cfg env).2 ∧
       (handle_security_question cfg env).1 = true)) ∧
    ((handle_security_question cfg env).1 = false →
      (∃ m, env.options = .error m) ∨
      (∃ opts m, env.options = .ok opts ∧
        (clickMatching cfg.security_question opts 0).1 = .error m) ∨
      (∃ m, env.answerClear = .error m) ∨
      (∃ m, env.answerKeys = .error m)) := by
  refine ⟨?_, ?_, ?_⟩
  · intro opts hopts hnm
    have hloop := clickMatching_no_match cfg.security_question opts hnm 0
    constructor
    · intro i hmem
      rcases ha : env.findAnswer with _ | ae
      · have hrun : (handle_security_question cfg env).2 =
            Act.findQuestion :: Act.findOptions ::
              ((clickMatching cfg.security_question opts 0).2 ++
                [Act.findAnswer]) := by
          simp [handle_security_question, hen, hq, hopts, hloop.1, ha]
        rw [hrun] at hmem
        rcases List.mem_cons.mp hmem with h1 | h2
        · exact absurd h1 (by simp)
        rcases List.mem_cons.mp h2 with h1 | h3
        · exact absurd h1 (by simp)
        rcases List.mem_append.mp h3 with h1 | h1
        · exact hloop.2 i h1
        · simp at h1
      · have hrun : (handle_security_question cfg env).2 =
            Act.findQuestion :: Act.findOptions ::
              ((clickMatching cfg.security_question opts 0).2 ++
                [Act.findAnswer, Act.typeAnswer]) := by
          rcases hac : env.answerClear with m | u
          · simp [handle_security_question, hen, hq, hopts, hloop.1, ha, hac]
          · rcases hak : env.answerKeys with m | u2 <;>
              simp [handle_security_question, hen, hq, hopts, hloop.1, ha,
                hac, hak]
        rw [hrun] at hmem
        rcases List.mem_cons.mp hmem with h1 | h2
        · exact absurd h1 (by simp)
        rcases List.mem_cons.mp h2 with h1 | h3
        · exact absurd h1 (by simp)
        rcases List.mem_append.mp h3 with h1 | h1
        · exact hloop.2 i h1
        · simp at h1
    · intro hok
      rcases hok with ha | ⟨hac, hak⟩
      · simp [handle_security_question, hen, hq, hopts, hloop.1, ha]
      · rcases ha : env.findAnswer with _ | ae
        · simp [handle_security_question, hen, hq, hopts, hloop.1, ha]
        · simp [handle_security_question, hen, hq, hopts, hloop.1, ha, hac,
            hak]
  · intro opts hopts hlp ha
    have hrun : handle_security_question cfg env =
        (true, Act.findQuestion :: Act.findOptions ::
          ((clickMatching cfg.security_question opts 0).2 ++
            [Act.findAnswer])) := by
      simp [handle_security_question, hen, hq, hopts, hlp, ha]
    rw [hrun]
    refine ⟨?_, rfl⟩
    intro hmem
    simp only at hmem
    rcases List.mem_cons.mp hmem with h1 | h2
    · exact absurd h1 (by simp)
    rcases List.mem_cons.mp h2 with h1 | h3
    · exact absurd h1 (by simp)
    rcases List.mem_append.mp h3 with h1 | h1
    · rcases clickMatching_trace_cases cfg.security_question opts _ 0 h1 with
        ⟨i, h2⟩ | ⟨i, h2⟩ <;> exact absurd h2 (by simp)
    · simp at h1
  · intro hfalse
    rcases hopts : env.options with m | opts
    · exact Or.inl ⟨m, rfl⟩
    rcases hlp : (clickMatching cfg.security_question opts 0).1 with m | u
    · exact Or.inr (Or.inl ⟨opts, m, rfl, hlp⟩)
    rcases ha : env.findAnswer with _ | ae
    · rw [show (handle_security_question cfg env).1 = true by
        simp [handle_security_question, hen, hq, hopts, hlp, ha]] at hfalse
      exact absurd hfalse (by simp)
    rcases hac : env.answerClear with m | u2
    · exact Or.inr (Or.inr (Or.inl ⟨m, rfl⟩))
    rcases hak : env.answerKeys with m | u3
    · exact Or.inr (Or.inr (Or.inr ⟨m, rfl⟩))
    · rw [show (handle_security_question cfg env).1 = true by
        simp [handle_security_question, hen, hq, hopts, hlp, ha, hac,
          hak]] at hfalse
      exact absurd hfalse (by simp)

/-- Witness for C10: feature enabled, dropdown present, one non-matching
option, no answer input — success with no option clicked. -/
theorem handle_security_question_tolerant_witness :
    (handle_security_question cfgSec secNoMatch).1 = true ∧
      (∀ i, Act.clickOption i ∉
        (handle_security_question cfgSec secNoMatch).2) := by
  have h := (handle_security_question_tolerant cfgSec secNoMatch 5 rfl rfl).1
    [⟨.ok "x", .ok ()⟩] rfl (by
      intro o ho
      rw [List.mem_singleton] at ho
      subst ho
      exact ⟨"x", rfl, by decide⟩)
  exact ⟨h.2 (Or.inl rfl), h.1⟩

-- ==========================================================
-- C1: cookie-based login (spec-modelled)
-- ==========================================================

/-- A chunk without `=` is malformed and yields no pair. -/
lemma splitEqAux_none (acc : List Char) (cs : List Char) (h : '=' ∉ cs) :
    splitEqAux acc cs = none := by
  induction cs generalizing acc with
  | nil => rfl
  | cons c rest ih =>
    simp only [List.mem_cons, not_or] at h
    have hc : ¬ c = '=' := fun hc => h.1 (by rw [hc])
    simp [splitEqAux, hc, ih _ h.2]

/-- The trace of a successful-navigation cookie run. -/
lemma cookie_login_run_trace (s : String) (env : CookieEnv)
    (hn : env.navigate = .ok ()) (hr : env.reload = .ok ()) :
    (cookie_login_run s env).2 =
      Act.navigate ::
        (((parseCookies s).map (fun nv => Act.addCookie nv.1 nv.2) ++
          [Act.reload]) ++ [Act.findStatus]) := by
  simp [cookie_login_run, hn, hr, check_login_status_trace]

/-- C1: with a session-cookie string supplied, the run navigates, injects
exactly the well-formed pairs (malformed chunks without `=` contribute
nothing and injection outcomes cannot steer the result), reloads, and
succeeds exactly when the marker check passes after the reload — it touches
no credential form and never falls back to credential login. -/
theorem cookie_login_spec (s : String) (env : CookieEnv)
    (hn : env.navigate = .ok ()) (hr : env.reload = .ok ()) :
    ((cookie_login s env = true) ↔
      ∃ e, env.status.find loginIndicators 3 = .ok (some e)) ∧
    (∀ n v, Act.addCookie n v ∈ (cookie_login_run s env).2 ↔
      (n, v) ∈ parseCookies s) ∧
    (∀ f, cookie_login s ⟨env.navigate, f, env.reload, env.status⟩ =
      cookie_login s env) ∧
    (∀ p : List Char, '=' ∉ p → splitEqAux [] p = none) ∧
    (∀ a ∈ (cookie_login_run s env).2,
      a = Act.navigate ∨ a = Act.reload ∨ a = Act.findStatus ∨
        ∃ n v, a = Act.addCookie n v) := by
  have htr := cookie_login_run_trace s env hn hr
  refine ⟨?_, ?_, ?_, ?_, ?_⟩
  · have h1 : cookie_login s env = (check_login_status env.status).1 := by
      simp [cookie_login, cookie_login_run, hn, hr]
    rw [h1]
    exact check_login_status_true_iff env.status
  · intro n v
    rw [htr]
    constructor
    · intro hmem
      rcases List.mem_cons.mp hmem with h1 | h2
      · exact Act.noConfusion h1
      rcases List.mem_append.mp h2 with h3 | h4
      · rcases List.mem_append.mp h3 with h5 | h6
        · obtain ⟨nv, hnv, heq⟩ := List.mem_map.mp h5
          rcases nv with ⟨n2, v2⟩
          simp only [Act.addCookie.injEq] at heq
          rw [← heq.1, ← heq.2]
          exact hnv
        · rw [List.mem_singleton] at h6
          exact Act.noConfusion h6
      · rw [List.mem_singleton] at h4
        exact Act.noConfusion h4
    · intro hmem
      refine List.mem_cons.mpr (Or.inr ?_)
      refine List.mem_append.mpr (Or.inl (List.mem_append.mpr (Or.inl ?_)))
      exact List.mem_map.mpr ⟨(n, v), hmem, rfl⟩
  · intro f
    obtain ⟨nav, ac, rel, st⟩ := env
    rfl
  · exact fun p hp => splitEqAux_none [] p hp
  · intro a ha
    rw [htr] at ha
    rcases List.mem_cons.mp ha with h1 | h2
    · exact Or.inl h1
    rcases List.mem_append.mp h2 with h3 | h4
    · rcases List.mem_append.mp h3 with h5 | h6
      · obtain ⟨nv, _, heq⟩ := List.mem_map.mp h5
        exact Or.inr (Or.inr (Or.inr ⟨nv.1, nv.2, heq.symm⟩))
      · rw [List.mem_singleton] at h6
        exact Or.inr (Or.inl h6)
    · rw [List.mem_singleton] at h4
      exact Or.inr (Or.inr (Or.inl h4))

/-- Witness for C1: the string `"a=1; bad; b=2"` injects `a` and `b`, skips
the malformed chunk, and the run succeeds since a marker is found after
reload, although every injection call failed. -/
theorem cookie_login_spec_witness :
    cookie_login "a=1; bad; b=2" cookieEnvHit = true ∧
      Act.addCookie "a" "1" ∈
        (cookie_login_run "a=1; bad; b=2" cookieEnvHit).2 ∧
      Act.addCookie "b" "2" ∈
        (cookie_login_run "a=1; bad; b=2" cookieEnvHit).2 ∧
      (∀ v, Act.addCookie "bad" v ∉
        (cookie_login_run "a=1; bad; b=2" cookieEnvHit).2) := by
  have h := cookie_login_spec "a=1; bad; b=2" cookieEnvHit rfl rfl
  refine ⟨h.1.mpr ⟨3, rfl⟩, (h.2.1 "a" "1").mpr (by decide),
    (h.2.1 "b" "2").mpr (by decide), ?_⟩
  intro v hv
  have hm := (h.2.1 "bad" v).mp hv
  have hpc : parseCookies "a=1; bad; b=2" = [("a", "1"), ("b", "2")] := by
    decide
  rw [hpc] at hm
  rcases List.mem_cons.mp hm with h1 | h2
  · have hfst : "bad" = "a" := congrArg Prod.fst h1
    exact absurd hfst (by decide)
  · rw [List.mem_singleton] at h2
    have hfst : "bad" = "b" := congrArg Prod.fst h2
    exact absurd hfst (by decide)
